import Mathlib

/-
Verification development for the weather-alert-bot repository.

Shallow embedding of the alert evaluation core:
  - weather_monitor.py : WeatherMonitor.get_daily_summary (daily aggregator)
  - alert_manager.py   : AlertManager.check_alerts, the five rule checkers,
                         AlertManager.check_all_locations

Modelling conventions:
  - Python floats are modelled as exact rationals; the decimal literals
    1.5, 1.2 and 2 that scale thresholds are the exact rationals 3/2, 6/5
    and 2 (for every concrete input appearing below the IEEE evaluation
    and the rational evaluation agree).
  - Calendar dates are day numbers in Int; the current local date is an
    explicit argument (the Python code reads the wall clock).
  - Strings are Lean strings; Python str.lower is modelled by
    String.toLower (ASCII lowering, which agrees with Python on the ASCII
    condition labels the provider emits); the Python substring test
    needle in hay is contiguous-sublist containment on the character
    lists.
  - Python None for a missing dict key is Option.none; .get with a
    default is Option.getD.
  - WeatherMonitor.__init__ raises WeatherAPIError when the api key is
    empty; fallible paths are modelled with Except String.
  - datetime.now() in Alert.created_at and log output are side effects
    outside the embedding; no claim concerns them.
-/

namespace WeatherAlertBot

/-- Value stored in an alert detail payload (Python dict values are
numbers or lists of strings at the sites being modelled). -/
inductive DetailValue where
  | num (q : ℚ)
  | strList (l : List String)
  deriving DecidableEq, Repr

/-- Rendering of a number into message text. The Python code formats
IEEE doubles with printf-style specifiers (:.0f, :.1f); no claim
concerns the numeric text of a message, so the exact rational is
rendered instead. -/
def fmtNum (q : ℚ) : String := toString q

/-- Python substring containment needle in hay, on character lists:
true when the needle occurs contiguously (the empty needle always
matches, as in Python). -/
def charsContain (needle : List Char) : List Char → Bool
  | [] => needle.isEmpty
  | c :: rest => needle.isPrefixOf (c :: rest) || charsContain needle rest

/-- Python needle in hay on strings: contiguous substring containment. -/
def strContains (needle hay : String) : Bool :=
  charsContain needle.data hay.data

/-- Python str.lower, modelled as character-wise ASCII lowering (the
provider condition labels and configured phrases are ASCII, where the
two agree). -/
def strLower (s : String) : String :=
  ⟨s.data.map Char.toLower⟩

/-- One sub-daily forecast reading, as produced by
WeatherMonitor._parse_forecast (weather_monitor.py lines 144-168); only
the fields the aggregator and classifiers read are carried. -/
structure ForecastSample where
  date : Int
  temperature : ℚ
  temp_min : ℚ
  temp_max : ℚ
  wind_speed_kmh : ℚ
  wind_gust : ℚ
  precipitation : ℚ
  precipitation_probability : ℚ
  weather : String
  deriving DecidableEq, Repr

/-- One fetched forecast for one location (weather_monitor.py lines
171-181); provider metadata not read by the core is omitted. -/
structure Forecast where
  location_name : String
  forecasts : List ForecastSample
  deriving DecidableEq, Repr

/-- Daily summary record (weather_monitor.py lines 206-218). -/
structure DailySummary where
  date : Int
  location_name : String
  temp_min : ℚ
  temp_max : ℚ
  temp_avg : ℚ
  wind_speed_max : ℚ
  wind_gust_max : ℚ
  precipitation_total : ℚ
  precipitation_probability_max : ℚ
  weather_conditions : List String
  hourly_forecasts : List ForecastSample
  deriving DecidableEq, Repr

/-- Configuration record for the wind rule. A missing dict key in the
Python config behaves exactly like a record of defaults, since every
read goes through .get. -/
structure WindConfig where
  enabled : Bool := false
  threshold_kmh : Option ℚ := none
  check_days_ahead : Option Int := none
  deriving DecidableEq, Repr

/-- Configuration record for the storm rule. -/
structure StormConfig where
  enabled : Bool := false
  wind_gust_threshold_kmh : Option ℚ := none
  precipitation_threshold_mm : Option ℚ := none
  check_days_ahead : Option Int := none
  deriving DecidableEq, Repr

/-- Configuration record for the temperature rule. -/
structure TemperatureConfig where
  enabled : Bool := false
  min_temp_c : Option ℚ := none
  max_temp_c : Option ℚ := none
  check_days_ahead : Option Int := none
  deriving DecidableEq, Repr

/-- Configuration record for the precipitation rule. -/
structure PrecipitationConfig where
  enabled : Bool := false
  threshold_mm : Option ℚ := none
  check_days_ahead : Option Int := none
  deriving DecidableEq, Repr

/-- Configuration record for the weather-conditions rule. Python reads
alert_on with .get defaulting to the empty list. -/
structure WeatherConditionsConfig where
  enabled : Bool := false
  alert_on : List String := []
  check_days_ahead : Option Int := none
  deriving DecidableEq, Repr

/-- The alert configuration mapping: the five rule-type keys of the
Python alerts dict. -/
structure AlertConfig where
  wind : WindConfig := {}
  storm : StormConfig := {}
  temperature : TemperatureConfig := {}
  precipitation : PrecipitationConfig := {}
  weather_conditions : WeatherConditionsConfig := {}
  deriving DecidableEq, Repr

/-- Alert record (alert_manager.py lines 14-43); created_at is a wall
clock side effect and is omitted. -/
structure Alert where
  location_name : String
  alert_type : String
  severity : String
  message : String
  details : List (String × DetailValue)
  forecast_date : Int
  deriving DecidableEq, Repr

/-- WeatherMonitor.get_daily_summary (weather_monitor.py lines 183-220):
filter the samples whose local date is today + days_ahead, return none
when no sample matches, otherwise aggregate. Python list(set(...)) for
the condition labels is an unordered deduplication; it is modelled as
first-occurrence deduplication (the spec flags the source order as
non-deterministic and no claim depends on it). -/
def get_daily_summary (today : Int) (forecast : Forecast) (days_ahead : Int) :
    Option DailySummary :=
  let target_date := today + days_ahead
  let day_forecasts := forecast.forecasts.filter (fun f => f.date == target_date)
  match day_forecasts with
  | [] => none
  | f :: fs =>
    some {
      date := target_date
      location_name := forecast.location_name
      temp_min := fs.foldl (fun a s => min a s.temp_min) f.temp_min
      temp_max := fs.foldl (fun a s => max a s.temp_max) f.temp_max
      temp_avg := ((day_forecasts.map (fun s => s.temperature)).sum) /
        (day_forecasts.length : ℚ)
      wind_speed_max := fs.foldl (fun a s => max a s.wind_speed_kmh) f.wind_speed_kmh
      wind_gust_max := fs.foldl (fun a s => max a s.wind_gust) f.wind_gust
      precipitation_total := (day_forecasts.map (fun s => s.precipitation)).sum
      precipitation_probability_max :=
        fs.foldl (fun a s => max a s.precipitation_probability) f.precipitation_probability
      weather_conditions := (day_forecasts.map (fun s => s.weather)).dedup
      hourly_forecasts := day_forecasts }

/-- AlertManager._check_wind_alert (alert_manager.py lines 192-227). -/
def check_wind_alert (cfg : AlertConfig) (ds : DailySummary) : Option Alert :=
  let threshold := cfg.wind.threshold_kmh.getD 50
  let max_wind := ds.wind_speed_max
  let max_gust := ds.wind_gust_max
  if max_wind ≥ threshold ∨ max_gust ≥ threshold then
    let severity :=
      if max_wind ≥ threshold * (3/2) ∨ max_gust ≥ threshold * (3/2) then "severe"
      else if max_wind ≥ threshold * (6/5) ∨ max_gust ≥ threshold * (6/5) then "high"
      else "moderate"
    some {
      location_name := ds.location_name
      alert_type := "wind"
      severity := severity
      message := "high winds expected with gusts up to " ++ fmtNum max_gust ++ " km/h"
      details := [("max_wind_speed_kmh", DetailValue.num max_wind),
                  ("max_wind_gust_kmh", DetailValue.num max_gust),
                  ("threshold_kmh", DetailValue.num threshold)]
      forecast_date := ds.date }
  else none

/-- AlertManager._check_storm_alert (alert_manager.py lines 229-259). -/
def check_storm_alert (cfg : AlertConfig) (ds : DailySummary) : Option Alert :=
  let wind_threshold := cfg.storm.wind_gust_threshold_kmh.getD 70
  let precip_threshold := cfg.storm.precipitation_threshold_mm.getD 20
  let max_gust := ds.wind_gust_max
  let total_precip := ds.precipitation_total
  if max_gust ≥ wind_threshold ∧ total_precip ≥ precip_threshold then
    some {
      location_name := ds.location_name
      alert_type := "storm"
      severity := "severe"
      message := "storm conditions expected with strong winds up to " ++
        fmtNum max_gust ++ " km/h and heavy precipitation (" ++
        fmtNum total_precip ++ " mm)"
      details := [("max_wind_gust_kmh", DetailValue.num max_gust),
                  ("total_precipitation_mm", DetailValue.num total_precip),
                  ("wind_threshold_kmh", DetailValue.num wind_threshold),
                  ("precipitation_threshold_mm", DetailValue.num precip_threshold)]
      forecast_date := ds.date }
  else none

/-- Heat half of AlertManager._check_temperature_alert (alert_manager.py
lines 290-306): reached only when the cold check did not fire. -/
def temperature_heat_alert (ds : DailySummary) (max_threshold : Option ℚ) :
    Option Alert :=
  match max_threshold with
  | some mx =>
    if ds.temp_max ≥ mx then
      some {
        location_name := ds.location_name
        alert_type := "temperature"
        severity := if ds.temp_max ≥ mx + 5 then "high" else "moderate"
        message := "very hot temperatures expected with highs of " ++
          fmtNum ds.temp_max ++ "°c"
        details := [("max_temperature_c", DetailValue.num ds.temp_max),
                    ("threshold_c", DetailValue.num mx)]
        forecast_date := ds.date }
    else none
  | none => none

/-- AlertManager._check_temperature_alert (alert_manager.py lines
261-308): the cold check returns first when it fires, so it shadows the
heat check. -/
def check_temperature_alert (cfg : AlertConfig) (ds : DailySummary) : Option Alert :=
  match cfg.temperature.min_temp_c with
  | some m =>
    if ds.temp_min ≤ m then
      some {
        location_name := ds.location_name
        alert_type := "temperature"
        severity := if ds.temp_min ≤ m - 5 then "high" else "moderate"
        message := "very cold temperatures expected with lows of " ++
          fmtNum ds.temp_min ++ "°c"
        details := [("min_temperature_c", DetailValue.num ds.temp_min),
                    ("threshold_c", DetailValue.num m)]
        forecast_date := ds.date }
    else temperature_heat_alert ds cfg.temperature.max_temp_c
  | none => temperature_heat_alert ds cfg.temperature.max_temp_c

/-- AlertManager._check_precipitation_alert (alert_manager.py lines
310-344). -/
def check_precipitation_alert (cfg : AlertConfig) (ds : DailySummary) : Option Alert :=
  let threshold := cfg.precipitation.threshold_mm.getD 30
  let total_precip := ds.precipitation_total
  let precip_prob := ds.precipitation_probability_max
  if total_precip ≥ threshold then
    let severity :=
      if total_precip ≥ threshold * 2 then "severe"
      else if total_precip ≥ threshold * (3/2) then "high"
      else "moderate"
    some {
      location_name := ds.location_name
      alert_type := "precipitation"
      severity := severity
      message := "heavy precipitation expected (" ++ fmtNum total_precip ++
        " mm) with " ++ fmtNum precip_prob ++ "% probability"
      details := [("total_precipitation_mm", DetailValue.num total_precip),
                  ("probability_percent", DetailValue.num precip_prob),
                  ("threshold_mm", DetailValue.num threshold)]
      forecast_date := ds.date }
  else none

/-- AlertManager._check_weather_conditions_alert (alert_manager.py lines
346-380). -/
def check_weather_conditions_alert (cfg : AlertConfig) (ds : DailySummary) :
    Option Alert :=
  let alert_conditions := cfg.weather_conditions.alert_on
  let alert_conditions_lower := alert_conditions.map strLower
  let forecast_conditions := ds.weather_conditions.map strLower
  let matching_conditions := forecast_conditions.filter
    (fun c => alert_conditions_lower.any (fun a => strContains a c))
  if matching_conditions.isEmpty then none
  else
    some {
      location_name := ds.location_name
      alert_type := "weather_conditions"
      severity := "moderate"
      message := "adverse weather conditions expected: " ++
        String.intercalate ", " matching_conditions
      details := [("weather_conditions", DetailValue.strList matching_conditions),
                  ("alert_on", DetailValue.strList alert_conditions)]
      forecast_date := ds.date }

/-- Rule dispatch of AlertManager.check_alerts (alert_manager.py lines
164-190): each enabled rule type contributes its optional alert, in the
fixed order wind, storm, temperature, precipitation, weather_conditions. -/
def check_alerts_with_summary (cfg : AlertConfig) (ds : DailySummary) : List Alert :=
  (if cfg.wind.enabled then (check_wind_alert cfg ds).toList else []) ++
  (if cfg.storm.enabled then (check_storm_alert cfg ds).toList else []) ++
  (if cfg.temperature.enabled then (check_temperature_alert cfg ds).toList else []) ++
  (if cfg.precipitation.enabled then (check_precipitation_alert cfg ds).toList else []) ++
  (if cfg.weather_conditions.enabled then
    (check_weather_conditions_alert cfg ds).toList else [])

/-- Evaluation logic of AlertManager.check_alerts past the WeatherMonitor
construction (alert_manager.py lines 155-190): summarize the target day
and dispatch the rules; an absent summary yields the empty list. -/
def check_alerts_core (cfg : AlertConfig) (today : Int) (fd : Forecast)
    (days_ahead : Int) : List Alert :=
  match get_daily_summary today fd days_ahead with
  | none => []
  | some ds => check_alerts_with_summary cfg ds

/-- WeatherMonitor.__init__ (weather_monitor.py lines 23-34): raises
WeatherAPIError when the api key is falsy. -/
def weatherMonitorInit (api_key : String) : Except String Unit :=
  if api_key.isEmpty then Except.error "openweathermap api key is required"
  else Except.ok ()

/-- AlertManager.check_alerts (alert_manager.py lines 135-190) as
actually written: it first constructs WeatherMonitor(api_key="") for
method access (line 154), whose constructor raises on the empty key, so
the evaluation logic is never reached. -/
def check_alerts (cfg : AlertConfig) (today : Int) (fd : Forecast)
    (days_ahead : Int) : Except String (List Alert) :=
  match weatherMonitorInit "" with
  | Except.error e => Except.error e
  | Except.ok _ => Except.ok (check_alerts_core cfg today fd days_ahead)

/-- The five (enabled, check_days_ahead) pairs iterated by
AlertManager.check_all_locations (alert_manager.py lines 402-409), in
the canonical rule-type order of the configuration. -/
def ruleEntries (cfg : AlertConfig) : List (Bool × Option Int) :=
  [(cfg.wind.enabled, cfg.wind.check_days_ahead),
   (cfg.storm.enabled, cfg.storm.check_days_ahead),
   (cfg.temperature.enabled, cfg.temperature.check_days_ahead),
   (cfg.precipitation.enabled, cfg.precipitation.check_days_ahead),
   (cfg.weather_conditions.enabled, cfg.weather_conditions.check_days_ahead)]

/-- Inner loop of AlertManager.check_all_locations over the rule
entries: each enabled entry calls check_alerts at that entry's own
offset (default 1); an uncaught exception aborts the whole loop. -/
def check_rules_loop (cfg : AlertConfig) (today : Int) (fd : Forecast) :
    List (Bool × Option Int) → Except String (List Alert)
  | [] => Except.ok []
  | (enabled, days) :: rest =>
    if enabled then
      match check_alerts cfg today fd (days.getD 1) with
      | Except.error e => Except.error e
      | Except.ok as =>
        match check_rules_loop cfg today fd rest with
        | Except.error e => Except.error e
        | Except.ok rs => Except.ok (as ++ rs)
    else check_rules_loop cfg today fd rest

/-- Outer loop of AlertManager.check_all_locations over the forecasts. -/
def check_locations_loop (cfg : AlertConfig) (today : Int) :
    List Forecast → Except String (List Alert)
  | [] => Except.ok []
  | fd :: rest =>
    match check_rules_loop cfg today fd (ruleEntries cfg) with
    | Except.error e => Except.error e
    | Except.ok as =>
      match check_locations_loop cfg today rest with
      | Except.error e => Except.error e
      | Except.ok rs => Except.ok (as ++ rs)

/-- AlertManager.check_all_locations (alert_manager.py lines 382-415) as
actually written (the check_alerts it calls raises unconditionally). -/
def check_all_locations (cfg : AlertConfig) (today : Int) (fds : List Forecast) :
    Except String (List Alert) :=
  check_locations_loop cfg today fds

/-- Evaluation logic of AlertManager.check_all_locations with the
WeatherMonitor constructor slip removed: for each forecast and for each
enabled rule entry, run the full classification at that entry's own
offset, concatenating everything. This is what the code computes past
the guard, and what the spec describes. -/
def check_all_locations_core (cfg : AlertConfig) (today : Int)
    (fds : List Forecast) : List Alert :=
  (fds.map (fun fd =>
    ((ruleEntries cfg).map (fun rc =>
      if rc.1 then check_alerts_core cfg today fd (rc.2.getD 1) else [])).flatten)).flatten


/-! Helper lemmas about the fold-based aggregation. -/

lemma le_foldl_max (l : List ForecastSample) (f : ForecastSample → ℚ) (a : ℚ) :
    a ≤ l.foldl (fun b s => max b (f s)) a := by
  induction l generalizing a with
  | nil => exact le_refl a
  | cons x xs ih => exact le_trans (le_max_left a (f x)) (ih (max a (f x)))

lemma mem_le_foldl_max (l : List ForecastSample) (f : ForecastSample → ℚ) (a : ℚ)
    (x : ForecastSample) (hx : x ∈ l) :
    f x ≤ l.foldl (fun b s => max b (f s)) a := by
  induction l generalizing a with
  | nil => cases hx
  | cons y ys ih =>
    rcases List.mem_cons.mp hx with h | h
    · subst h
      exact le_trans (le_max_right a (f x)) (le_foldl_max ys f (max a (f x)))
    · exact ih (max a (f y)) h

lemma foldl_max_attained (l : List ForecastSample) (f : ForecastSample → ℚ) (a : ℚ) :
    l.foldl (fun b s => max b (f s)) a = a ∨
      ∃ x ∈ l, l.foldl (fun b s => max b (f s)) a = f x := by
  induction l generalizing a with
  | nil => exact Or.inl rfl
  | cons y ys ih =>
    rcases ih (max a (f y)) with h | ⟨x, hx, hfx⟩
    · rcases max_choice a (f y) with hm | hm
      · exact Or.inl (by rw [List.foldl_cons, h, hm])
      · exact Or.inr ⟨y, List.mem_cons_self y ys, by rw [List.foldl_cons, h, hm]⟩
    · exact Or.inr ⟨x, List.mem_cons_of_mem y hx, hfx⟩

lemma foldl_min_le (l : List ForecastSample) (f : ForecastSample → ℚ) (a : ℚ) :
    l.foldl (fun b s => min b (f s)) a ≤ a := by
  induction l generalizing a with
  | nil => exact le_refl a
  | cons x xs ih => exact le_trans (ih (min a (f x))) (min_le_left a (f x))

lemma foldl_min_le_mem (l : List ForecastSample) (f : ForecastSample → ℚ) (a : ℚ)
    (x : ForecastSample) (hx : x ∈ l) :
    l.foldl (fun b s => min b (f s)) a ≤ f x := by
  induction l generalizing a with
  | nil => cases hx
  | cons y ys ih =>
    rcases List.mem_cons.mp hx with h | h
    · subst h
      exact le_trans (foldl_min_le ys f (min a (f x))) (min_le_right a (f x))
    · exact ih (min a (f y)) h

lemma foldl_min_attained (l : List ForecastSample) (f : ForecastSample → ℚ) (a : ℚ) :
    l.foldl (fun b s => min b (f s)) a = a ∨
      ∃ x ∈ l, l.foldl (fun b s => min b (f s)) a = f x := by
  induction l generalizing a with
  | nil => exact Or.inl rfl
  | cons y ys ih =>
    rcases ih (min a (f y)) with h | ⟨x, hx, hfx⟩
    · rcases min_choice a (f y) with hm | hm
      · exact Or.inl (by rw [List.foldl_cons, h, hm])
      · exact Or.inr ⟨y, List.mem_cons_self y ys, by rw [List.foldl_cons, h, hm]⟩
    · exact Or.inr ⟨x, List.mem_cons_of_mem y hx, hfx⟩


/-! Classification facts about each rule checker. -/

lemma check_wind_alert_spec (cfg : AlertConfig) (ds : DailySummary) (a : Alert)
    (h : check_wind_alert cfg ds = some a) :
    a.alert_type = "wind" ∧
      (a.severity = "moderate" ∨ a.severity = "high" ∨ a.severity = "severe") := by
  simp only [check_wind_alert] at h
  split at h
  · rw [Option.some.injEq] at h
    subst h
    refine ⟨rfl, ?_⟩
    dsimp only
    split
    · exact Or.inr (Or.inr rfl)
    · split
      · exact Or.inr (Or.inl rfl)
      · exact Or.inl rfl
  · cases h

lemma check_storm_alert_spec (cfg : AlertConfig) (ds : DailySummary) (a : Alert)
    (h : check_storm_alert cfg ds = some a) :
    a.alert_type = "storm" ∧ a.severity = "severe" := by
  simp only [check_storm_alert] at h
  split at h
  · rw [Option.some.injEq] at h
    subst h
    exact ⟨rfl, rfl⟩
  · cases h

lemma temperature_heat_alert_spec (ds : DailySummary) (mx : Option ℚ) (a : Alert)
    (h : temperature_heat_alert ds mx = some a) :
    a.alert_type = "temperature" ∧ (a.severity = "moderate" ∨ a.severity = "high") := by
  simp only [temperature_heat_alert] at h
  split at h
  · split at h
    · rw [Option.some.injEq] at h
      subst h
      refine ⟨rfl, ?_⟩
      dsimp only
      split
      · exact Or.inr rfl
      · exact Or.inl rfl
    · cases h
  · cases h

lemma check_temperature_alert_spec (cfg : AlertConfig) (ds : DailySummary) (a : Alert)
    (h : check_temperature_alert cfg ds = some a) :
    a.alert_type = "temperature" ∧ (a.severity = "moderate" ∨ a.severity = "high") := by
  simp only [check_temperature_alert] at h
  split at h
  · split at h
    · rw [Option.some.injEq] at h
      subst h
      refine ⟨rfl, ?_⟩
      dsimp only
      split
      · exact Or.inr rfl
      · exact Or.inl rfl
    · exact temperature_heat_alert_spec ds cfg.temperature.max_temp_c a h
  · exact temperature_heat_alert_spec ds cfg.temperature.max_temp_c a h

lemma check_precipitation_alert_spec (cfg : AlertConfig) (ds : DailySummary) (a : Alert)
    (h : check_precipitation_alert cfg ds = some a) :
    a.alert_type = "precipitation" ∧
      (a.severity = "moderate" ∨ a.severity = "high" ∨ a.severity = "severe") := by
  simp only [check_precipitation_alert] at h
  split at h
  · rw [Option.some.injEq] at h
    subst h
    refine ⟨rfl, ?_⟩
    dsimp only
    split
    · exact Or.inr (Or.inr rfl)
    · split
      · exact Or.inr (Or.inl rfl)
      · exact Or.inl rfl
  · cases h

lemma check_weather_conditions_alert_spec (cfg : AlertConfig) (ds : DailySummary) (a : Alert)
    (h : check_weather_conditions_alert cfg ds = some a) :
    a.alert_type = "weather_conditions" ∧ a.severity = "moderate" := by
  simp only [check_weather_conditions_alert] at h
  split at h
  · cases h
  · rw [Option.some.injEq] at h
    subst h
    exact ⟨rfl, rfl⟩


/-! Facts about the rule dispatch. -/

lemma check_alerts_with_summary_cases (cfg : AlertConfig) (ds : DailySummary) (a : Alert)
    (ha : a ∈ check_alerts_with_summary cfg ds) :
    (cfg.wind.enabled = true ∧ check_wind_alert cfg ds = some a) ∨
    (cfg.storm.enabled = true ∧ check_storm_alert cfg ds = some a) ∨
    (cfg.temperature.enabled = true ∧ check_temperature_alert cfg ds = some a) ∨
    (cfg.precipitation.enabled = true ∧ check_precipitation_alert cfg ds = some a) ∨
    (cfg.weather_conditions.enabled = true ∧
      check_weather_conditions_alert cfg ds = some a) := by
  simp only [check_alerts_with_summary, List.mem_append] at ha
  rcases ha with ((((h | h) | h) | h) | h) <;>
    [skip; skip; skip; skip; skip] <;>
    · split at h
      · next hb =>
        first
        | exact Or.inl ⟨hb, by simpa [Option.mem_toList, Option.mem_def] using h⟩
        | exact Or.inr (Or.inl ⟨hb, by simpa [Option.mem_toList, Option.mem_def] using h⟩)
        | exact Or.inr (Or.inr (Or.inl ⟨hb,
            by simpa [Option.mem_toList, Option.mem_def] using h⟩))
        | exact Or.inr (Or.inr (Or.inr (Or.inl ⟨hb,
            by simpa [Option.mem_toList, Option.mem_def] using h⟩)))
        | exact Or.inr (Or.inr (Or.inr (Or.inr ⟨hb,
            by simpa [Option.mem_toList, Option.mem_def] using h⟩)))
      · cases h

lemma seg_map_cases (b : Bool) (o : Option Alert) (t : String)
    (ho : ∀ x, o = some x → x.alert_type = t) :
    ((if b then o.toList else []).map (fun a => a.alert_type)) = [] ∨
    ((if b then o.toList else []).map (fun a => a.alert_type)) = [t] := by
  split
  · cases o with
    | none => exact Or.inl rfl
    | some x => exact Or.inr (by simp [ho x rfl])
  · exact Or.inl rfl


lemma check_alerts_with_summary_types_nodup (cfg : AlertConfig) (ds : DailySummary) :
    ((check_alerts_with_summary cfg ds).map (fun a => a.alert_type)).Nodup := by
  have h1 := seg_map_cases cfg.wind.enabled (check_wind_alert cfg ds) "wind"
    (fun x hx => (check_wind_alert_spec cfg ds x hx).1)
  have h2 := seg_map_cases cfg.storm.enabled (check_storm_alert cfg ds) "storm"
    (fun x hx => (check_storm_alert_spec cfg ds x hx).1)
  have h3 := seg_map_cases cfg.temperature.enabled (check_temperature_alert cfg ds)
    "temperature" (fun x hx => (check_temperature_alert_spec cfg ds x hx).1)
  have h4 := seg_map_cases cfg.precipitation.enabled (check_precipitation_alert cfg ds)
    "precipitation" (fun x hx => (check_precipitation_alert_spec cfg ds x hx).1)
  have h5 := seg_map_cases cfg.weather_conditions.enabled
    (check_weather_conditions_alert cfg ds) "weather_conditions"
    (fun x hx => (check_weather_conditions_alert_spec cfg ds x hx).1)
  simp only [check_alerts_with_summary, List.map_append]
  rcases h1 with h1 | h1 <;> rcases h2 with h2 | h2 <;> rcases h3 with h3 | h3 <;>
    rcases h4 with h4 | h4 <;> rcases h5 with h5 | h5 <;>
      rw [h1, h2, h3, h4, h5] <;> decide

lemma check_alerts_with_summary_length (cfg : AlertConfig) (ds : DailySummary) :
    (check_alerts_with_summary cfg ds).length ≤ 5 := by
  have key : ((check_alerts_with_summary cfg ds).map (fun a => a.alert_type)).length ≤ 5 := by
    have h1 := seg_map_cases cfg.wind.enabled (check_wind_alert cfg ds) "wind"
      (fun x hx => (check_wind_alert_spec cfg ds x hx).1)
    have h2 := seg_map_cases cfg.storm.enabled (check_storm_alert cfg ds) "storm"
      (fun x hx => (check_storm_alert_spec cfg ds x hx).1)
    have h3 := seg_map_cases cfg.temperature.enabled (check_temperature_alert cfg ds)
      "temperature" (fun x hx => (check_temperature_alert_spec cfg ds x hx).1)
    have h4 := seg_map_cases cfg.precipitation.enabled (check_precipitation_alert cfg ds)
      "precipitation" (fun x hx => (check_precipitation_alert_spec cfg ds x hx).1)
    have h5 := seg_map_cases cfg.weather_conditions.enabled
      (check_weather_conditions_alert cfg ds) "weather_conditions"
      (fun x hx => (check_weather_conditions_alert_spec cfg ds x hx).1)
    simp only [check_alerts_with_summary, List.map_append, List.length_append]
    rcases h1 with h1 | h1 <;> rcases h2 with h2 | h2 <;> rcases h3 with h3 | h3 <;>
      rcases h4 with h4 | h4 <;> rcases h5 with h5 | h5 <;>
        rw [h1, h2, h3, h4, h5] <;> decide
  simpa using key


/-! Bridge from the executable substring test to sublist containment. -/

lemma isPrefixOf_eq_true : ∀ (n h : List Char), n.isPrefixOf h = true ↔ n <+: h
  | [], h => by simp [List.isPrefixOf]
  | a :: n, [] => by simp [List.isPrefixOf]
  | a :: n, b :: h => by
    simp only [List.isPrefixOf, Bool.and_eq_true, beq_iff_eq, List.cons_prefix_cons]
    exact and_congr Iff.rfl (isPrefixOf_eq_true n h)

lemma charsContain_eq_true (n : List Char) :
    ∀ h : List Char, charsContain n h = true ↔ n <:+: h
  | [] => by
    simp only [charsContain, List.isEmpty_iff]
    constructor
    · rintro rfl
      exact ⟨[], [], rfl⟩
    · rintro ⟨s, t, hst⟩
      rcases List.append_eq_nil.mp hst with ⟨hs, ht⟩
      exact (List.append_eq_nil.mp hs).2
  | c :: rest => by
    simp only [charsContain, Bool.or_eq_true, isPrefixOf_eq_true,
      charsContain_eq_true n rest, List.infix_cons_iff]


/-! Concrete fixtures and claim theorems. -/

/-- Wind rule at threshold 50 (claim C3 scenario). -/
def cfgC3 : AlertConfig :=
  { wind := { enabled := true, threshold_kmh := some 50 } }

/-- Summary with wind_speed_max 55 and wind_gust_max 60 (claim C3 scenario). -/
def dsC3 : DailySummary := {
  date := 1, location_name := "L", temp_min := 10, temp_max := 20, temp_avg := 15,
  wind_speed_max := 55, wind_gust_max := 60, precipitation_total := 0,
  precipitation_probability_max := 0, weather_conditions := [],
  hourly_forecasts := [] }

/-- C3, as stated, is false: with threshold 50, wind 55 and gust 60 the wind
checker does fire exactly once, but the gust equals 1.2 times the threshold
and the tiers are inclusive, so the severity is high, not moderate. -/
theorem C3_counterexample :
    ¬ ((check_wind_alert cfgC3 dsC3).map (fun a => a.severity) = some "moderate") := by
  norm_num [check_wind_alert, cfgC3, dsC3]
  decide

/-- C3 (amended): for a daily summary with wind_speed_max 55 and
wind_gust_max 60 against a wind rule with threshold 50, the classifier
produces exactly one wind Alert and its severity is high (60 equals the
inclusive 1.2-multiple of 50). -/
theorem C3_amended (cfg : AlertConfig) (ds : DailySummary)
    (hth : cfg.wind.threshold_kmh = some 50)
    (hw : ds.wind_speed_max = 55) (hg : ds.wind_gust_max = 60) :
    ∃ a, check_wind_alert cfg ds = some a ∧ a.alert_type = "wind" ∧
      a.severity = "high" := by
  simp only [check_wind_alert, hth, hw, hg, Option.getD]
  norm_num

/-- Witness for C3_amended at the concrete scenario. -/
theorem C3_witness :
    ∃ a, check_wind_alert cfgC3 dsC3 = some a ∧ a.alert_type = "wind" ∧
      a.severity = "high" :=
  C3_amended cfgC3 dsC3 rfl rfl rfl

/-- C4: whenever the cold threshold is configured and breached, the
temperature classifier returns exactly the cold alert (so at most one
temperature Alert overall, and the cold check takes precedence over the
heat check no matter what max_temp_c says), with severity high when
temp_min is at least 5 below the threshold and moderate otherwise. -/
theorem C4_temperature_cold_precedence (cfg : AlertConfig) (ds : DailySummary) (m : ℚ)
    (hm : cfg.temperature.min_temp_c = some m) (hcold : ds.temp_min ≤ m) :
    ∃ a, check_temperature_alert cfg ds = some a ∧ a.alert_type = "temperature" ∧
      a.severity = (if ds.temp_min ≤ m - 5 then "high" else "moderate") ∧
      a.details = [("min_temperature_c", DetailValue.num ds.temp_min),
                   ("threshold_c", DetailValue.num m)] := by
  simp only [check_temperature_alert, hm, if_pos hcold]
  exact ⟨_, rfl, rfl, rfl, rfl⟩

/-- Temperature rule with both thresholds configured (claim C4 witness). -/
def cfgC4 : AlertConfig :=
  { temperature := { enabled := true, min_temp_c := some 0, max_temp_c := some 20 } }

/-- Summary breaching both the cold and the heat threshold (claim C4 witness). -/
def dsC4 : DailySummary := {
  date := 1, location_name := "L", temp_min := -10, temp_max := 30, temp_avg := 5,
  wind_speed_max := 0, wind_gust_max := 0, precipitation_total := 0,
  precipitation_probability_max := 0, weather_conditions := [],
  hourly_forecasts := [] }

/-- Witness for C4 at a summary breaching both thresholds: the cold alert is
returned, with severity high. -/
theorem C4_witness :
    ∃ a, check_temperature_alert cfgC4 dsC4 = some a ∧ a.alert_type = "temperature" ∧
      a.severity = "high" ∧
      a.details = [("min_temperature_c", DetailValue.num dsC4.temp_min),
                   ("threshold_c", DetailValue.num 0)] := by
  obtain ⟨a, h1, h2, h3, h4⟩ :=
    C4_temperature_cold_precedence cfgC4 dsC4 0 rfl (by norm_num [dsC4])
  refine ⟨a, h1, h2, ?_, h4⟩
  rw [h3]
  norm_num [dsC4]

/-- Storm rule with gust threshold 70 and precipitation threshold 20
(claim C5 scenario). -/
def cfgC5 : AlertConfig :=
  { storm := { enabled := true, wind_gust_threshold_kmh := some 70,
               precipitation_threshold_mm := some 20 } }

/-- Summary with gust 100 but no precipitation (claim C5 scenario). -/
def dsC5 : DailySummary := {
  date := 1, location_name := "L", temp_min := 10, temp_max := 20, temp_avg := 15,
  wind_speed_max := 80, wind_gust_max := 100, precipitation_total := 0,
  precipitation_probability_max := 0, weather_conditions := [],
  hourly_forecasts := [] }

/-- Summary with gust 80 and precipitation 25, meeting both storm
sub-conditions (claim C5 witness). -/
def dsC5b : DailySummary := {
  date := 1, location_name := "L", temp_min := 10, temp_max := 20, temp_avg := 15,
  wind_speed_max := 60, wind_gust_max := 80, precipitation_total := 25,
  precipitation_probability_max := 90, weather_conditions := [],
  hourly_forecasts := [] }

/-- C5: with both storm thresholds configured, the storm rule fires exactly
when the gust and the precipitation sub-conditions hold together; a fired
storm alert is always severe; and the concrete summary with gust 100
against threshold 70 but precipitation 0 against threshold 20 produces no
storm alert. -/
theorem C5_storm_conjunction (cfg : AlertConfig) (ds : DailySummary) (wt pt : ℚ)
    (hw : cfg.storm.wind_gust_threshold_kmh = some wt)
    (hp : cfg.storm.precipitation_threshold_mm = some pt) :
    ((check_storm_alert cfg ds).isSome = true ↔
      (ds.wind_gust_max ≥ wt ∧ ds.precipitation_total ≥ pt)) ∧
    (∀ a, check_storm_alert cfg ds = some a → a.severity = "severe") ∧
    check_storm_alert cfgC5 dsC5 = none := by
  refine ⟨?_, fun a ha => (check_storm_alert_spec cfg ds a ha).2, ?_⟩
  · simp only [check_storm_alert, hw, hp, Option.getD]
    split
    · next hc => simpa using hc
    · next hc => simpa using hc
  · norm_num [check_storm_alert, cfgC5, dsC5]

/-- Witness for C5 at a summary meeting both sub-conditions. -/
theorem C5_witness : (check_storm_alert cfgC5 dsC5b).isSome = true :=
  (C5_storm_conjunction cfgC5 dsC5b 70 20 rfl rfl).1.mpr
    (by norm_num [dsC5b])


/-- C8: severity tiers are inclusive at the multiplier boundary: a wind
measurement exactly equal to 1.5 times the configured threshold yields a
severe wind alert, a precipitation total exactly equal to 2 times the
configured threshold yields a severe precipitation alert, and the concrete
example threshold 30 with total 65 is severe. -/
theorem C8_inclusive_boundaries (cfg : AlertConfig) (ds : DailySummary) (t p : ℚ) :
    (cfg.wind.threshold_kmh = some t → 0 ≤ t →
      (ds.wind_speed_max = t * (3/2) ∨ ds.wind_gust_max = t * (3/2)) →
      ∃ a, check_wind_alert cfg ds = some a ∧ a.severity = "severe") ∧
    (cfg.precipitation.threshold_mm = some p → 0 ≤ p →
      ds.precipitation_total = p * 2 →
      ∃ a, check_precipitation_alert cfg ds = some a ∧ a.severity = "severe") ∧
    (cfg.precipitation.threshold_mm = some 30 → ds.precipitation_total = 65 →
      ∃ a, check_precipitation_alert cfg ds = some a ∧ a.severity = "severe") := by
  refine ⟨?_, ?_, ?_⟩
  · intro hth ht hcase
    simp only [check_wind_alert, hth, Option.getD]
    have hfire : ds.wind_speed_max ≥ t ∨ ds.wind_gust_max ≥ t := by
      rcases hcase with hc | hc
      · exact Or.inl (by rw [hc]; linarith)
      · exact Or.inr (by rw [hc]; linarith)
    have hsev : ds.wind_speed_max ≥ t * (3/2) ∨ ds.wind_gust_max ≥ t * (3/2) := by
      rcases hcase with hc | hc
      · exact Or.inl (le_of_eq hc.symm)
      · exact Or.inr (le_of_eq hc.symm)
    rw [if_pos hfire, if_pos hsev]
    exact ⟨_, rfl, rfl⟩
  · intro hth hp htot
    simp only [check_precipitation_alert, hth, Option.getD]
    have hfire : ds.precipitation_total ≥ p := by rw [htot]; linarith
    have hsev : ds.precipitation_total ≥ p * 2 := le_of_eq htot.symm
    rw [if_pos hfire, if_pos hsev]
    exact ⟨_, rfl, rfl⟩
  · intro hth htot
    simp only [check_precipitation_alert, hth, htot, Option.getD]
    norm_num

/-- Wind threshold 40 and precipitation threshold 30 (claim C8 witness). -/
def cfgC8 : AlertConfig :=
  { wind := { enabled := true, threshold_kmh := some 40 },
    precipitation := { enabled := true, threshold_mm := some 30 } }

/-- Summary whose wind speed is exactly 1.5 times 40 (claim C8 witness). -/
def dsC8w : DailySummary := {
  date := 1, location_name := "L", temp_min := 10, temp_max := 20, temp_avg := 15,
  wind_speed_max := 60, wind_gust_max := 0, precipitation_total := 0,
  precipitation_probability_max := 0, weather_conditions := [],
  hourly_forecasts := [] }

/-- Summary whose precipitation total is exactly 2 times 30 (claim C8 witness). -/
def dsC8p : DailySummary := {
  date := 1, location_name := "L", temp_min := 10, temp_max := 20, temp_avg := 15,
  wind_speed_max := 0, wind_gust_max := 0, precipitation_total := 60,
  precipitation_probability_max := 80, weather_conditions := [],
  hourly_forecasts := [] }

/-- Summary with precipitation total 65 (claim C8 witness). -/
def dsC8c : DailySummary := {
  date := 1, location_name := "L", temp_min := 10, temp_max := 20, temp_avg := 15,
  wind_speed_max := 0, wind_gust_max := 0, precipitation_total := 65,
  precipitation_probability_max := 80, weather_conditions := [],
  hourly_forecasts := [] }

/-- Witness for C8 at the three concrete boundary inputs. -/
theorem C8_witness :
    (∃ a, check_wind_alert cfgC8 dsC8w = some a ∧ a.severity = "severe") ∧
    (∃ a, check_precipitation_alert cfgC8 dsC8p = some a ∧ a.severity = "severe") ∧
    (∃ a, check_precipitation_alert cfgC8 dsC8c = some a ∧ a.severity = "severe") :=
  ⟨(C8_inclusive_boundaries cfgC8 dsC8w 40 30).1 rfl (by norm_num)
      (Or.inl (by norm_num [dsC8w])),
   (C8_inclusive_boundaries cfgC8 dsC8p 40 30).2.1 rfl (by norm_num)
      (by norm_num [dsC8p]),
   (C8_inclusive_boundaries cfgC8 dsC8c 40 30).2.2 rfl (by norm_num [dsC8c])⟩

/-- Wind rule enabled with no threshold configured (claim C2 scenario). -/
def cfgC2 : AlertConfig := { wind := { enabled := true } }

/-- Configuration with nothing configured at all (claim C2 witness). -/
def cfgC2w : AlertConfig := {}

/-- Summary with wind speed 60 (claim C2 scenario). -/
def dsC2 : DailySummary := {
  date := 1, location_name := "L", temp_min := 10, temp_max := 20, temp_avg := 15,
  wind_speed_max := 60, wind_gust_max := 0, precipitation_total := 0,
  precipitation_probability_max := 0, weather_conditions := [],
  hourly_forecasts := [] }

/-- C2, as stated, is false: the wind rule is enabled, its threshold_kmh is
absent, and the classifier still produces an alert (the code substitutes
the default threshold 50 instead of skipping the rule). -/
theorem C2_counterexample : check_alerts_with_summary cfgC2 dsC2 ≠ [] := by
  norm_num [check_alerts_with_summary, check_wind_alert, cfgC2, dsC2]

/-- C2 (amended): a rule type whose enabled flag is false contributes no
Alert; the temperature rule with neither threshold configured contributes
no Alert, and the weather_conditions rule with an absent alert_on list
contributes no Alert; but absent thresholds do not skip the wind, storm
and precipitation rules — those behave exactly as if the defaults (50
km/h; 70 km/h and 20 mm; 30 mm) were configured. -/
theorem C2_amended (cfg : AlertConfig) (ds : DailySummary) :
    (∀ a ∈ check_alerts_with_summary cfg ds,
      (a.alert_type = "wind" → cfg.wind.enabled = true) ∧
      (a.alert_type = "storm" → cfg.storm.enabled = true) ∧
      (a.alert_type = "temperature" → cfg.temperature.enabled = true) ∧
      (a.alert_type = "precipitation" → cfg.precipitation.enabled = true) ∧
      (a.alert_type = "weather_conditions" → cfg.weather_conditions.enabled = true)) ∧
    (cfg.temperature.min_temp_c = none → cfg.temperature.max_temp_c = none →
      check_temperature_alert cfg ds = none) ∧
    (cfg.weather_conditions.alert_on = [] →
      check_weather_conditions_alert cfg ds = none) ∧
    (cfg.wind.threshold_kmh = none →
      check_wind_alert cfg ds =
        check_wind_alert
          { cfg with wind := { cfg.wind with threshold_kmh := some 50 } } ds) ∧
    (cfg.storm.wind_gust_threshold_kmh = none →
      cfg.storm.precipitation_threshold_mm = none →
      check_storm_alert cfg ds =
        check_storm_alert
          { cfg with storm := { cfg.storm with
              wind_gust_threshold_kmh := some 70,
              precipitation_threshold_mm := some 20 } } ds) ∧
    (cfg.precipitation.threshold_mm = none →
      check_precipitation_alert cfg ds =
        check_precipitation_alert
          { cfg with precipitation := { cfg.precipitation with
              threshold_mm := some 30 } } ds) := by
  refine ⟨?_, ?_, ?_, ?_, ?_, ?_⟩
  · intro a ha
    rcases check_alerts_with_summary_cases cfg ds a ha with
      ⟨he, hs⟩ | ⟨he, hs⟩ | ⟨he, hs⟩ | ⟨he, hs⟩ | ⟨he, hs⟩
    · have hty := (check_wind_alert_spec cfg ds a hs).1
      exact ⟨fun _ => he,
        fun h => absurd (hty.symm.trans h) (by decide),
        fun h => absurd (hty.symm.trans h) (by decide),
        fun h => absurd (hty.symm.trans h) (by decide),
        fun h => absurd (hty.symm.trans h) (by decide)⟩
    · have hty := (check_storm_alert_spec cfg ds a hs).1
      exact ⟨fun h => absurd (hty.symm.trans h) (by decide),
        fun _ => he,
        fun h => absurd (hty.symm.trans h) (by decide),
        fun h => absurd (hty.symm.trans h) (by decide),
        fun h => absurd (hty.symm.trans h) (by decide)⟩
    · have hty := (check_temperature_alert_spec cfg ds a hs).1
      exact ⟨fun h => absurd (hty.symm.trans h) (by decide),
        fun h => absurd (hty.symm.trans h) (by decide),
        fun _ => he,
        fun h => absurd (hty.symm.trans h) (by decide),
        fun h => absurd (hty.symm.trans h) (by decide)⟩
    · have hty := (check_precipitation_alert_spec cfg ds a hs).1
      exact ⟨fun h => absurd (hty.symm.trans h) (by decide),
        fun h => absurd (hty.symm.trans h) (by decide),
        fun h => absurd (hty.symm.trans h) (by decide),
        fun _ => he,
        fun h => absurd (hty.symm.trans h) (by decide)⟩
    · have hty := (check_weather_conditions_alert_spec cfg ds a hs).1
      exact ⟨fun h => absurd (hty.symm.trans h) (by decide),
        fun h => absurd (hty.symm.trans h) (by decide),
        fun h => absurd (hty.symm.trans h) (by decide),
        fun h => absurd (hty.symm.trans h) (by decide),
        fun _ => he⟩
  · intro h1 h2
    simp [check_temperature_alert, temperature_heat_alert, h1, h2]
  · intro h
    simp [check_weather_conditions_alert, h]
  · intro h
    simp [check_wind_alert, h]
  · intro h1 h2
    simp [check_storm_alert, h1, h2]
  · intro h
    simp [check_precipitation_alert, h]

/-- Witness for C2_amended: with nothing configured, the temperature and
weather-conditions checkers return no alert. -/
theorem C2_witness :
    check_temperature_alert cfgC2w dsC2 = none ∧
    check_weather_conditions_alert cfgC2w dsC2 = none :=
  ⟨(C2_amended cfgC2w dsC2).2.1 rfl rfl, (C2_amended cfgC2w dsC2).2.2.1 rfl⟩


lemma strContains_eq_true (n h : String) :
    strContains n h = true ↔ n.data <:+: h.data := by
  simp only [strContains]
  exact charsContain_eq_true n.data h.data

lemma filter_ne_nil_iff (l : List String) (q : String → Bool) :
    l.filter q ≠ [] ↔ ∃ x ∈ l, q x = true := by
  constructor
  · intro h
    rcases List.exists_mem_of_ne_nil _ h with ⟨y, hy⟩
    rcases List.mem_filter.mp hy with ⟨hyl, hq⟩
    exact ⟨y, hyl, hq⟩
  · rintro ⟨x, hxl, hq⟩
    exact List.ne_nil_of_mem (List.mem_filter.mpr ⟨hxl, hq⟩)

/-- C9: the weather-conditions rule fires exactly when some configured
alert_on phrase is, case-insensitively, a substring of some observed
condition label; when it fires, the severity is moderate, the message
carries all matching (lowercased) labels comma-joined, and the detail
payload carries the full matching list and the configured phrases. -/
theorem C9_weather_conditions (cfg : AlertConfig) (ds : DailySummary) :
    ((check_weather_conditions_alert cfg ds).isSome = true ↔
      ∃ c ∈ ds.weather_conditions, ∃ p ∈ cfg.weather_conditions.alert_on,
        (strLower p).data <:+: (strLower c).data) ∧
    (∀ a, check_weather_conditions_alert cfg ds = some a →
      a.severity = "moderate" ∧
      a.message = "adverse weather conditions expected: " ++
        String.intercalate ", "
          ((ds.weather_conditions.map strLower).filter
            (fun c => (cfg.weather_conditions.alert_on.map strLower).any
              (fun p => strContains p c))) ∧
      a.details =
        [("weather_conditions", DetailValue.strList
            ((ds.weather_conditions.map strLower).filter
              (fun c => (cfg.weather_conditions.alert_on.map strLower).any
                (fun p => strContains p c)))),
         ("alert_on", DetailValue.strList cfg.weather_conditions.alert_on)]) := by
  have hkey : ((ds.weather_conditions.map strLower).filter
      (fun c => (cfg.weather_conditions.alert_on.map strLower).any
        (fun p => strContains p c))) ≠ [] ↔
      ∃ c ∈ ds.weather_conditions, ∃ p ∈ cfg.weather_conditions.alert_on,
        (strLower p).data <:+: (strLower c).data := by
    rw [filter_ne_nil_iff]
    constructor
    · rintro ⟨x, hx, hq⟩
      rcases List.mem_map.mp hx with ⟨c, hc, rfl⟩
      rcases List.any_eq_true.mp hq with ⟨p', hp', hcon⟩
      rcases List.mem_map.mp hp' with ⟨p, hp, rfl⟩
      exact ⟨c, hc, p, hp, (strContains_eq_true _ _).mp hcon⟩
    · rintro ⟨c, hc, p, hp, hinf⟩
      refine ⟨strLower c, List.mem_map_of_mem strLower hc, ?_⟩
      exact List.any_eq_true.mpr ⟨strLower p, List.mem_map_of_mem strLower hp,
        (strContains_eq_true _ _).mpr hinf⟩
  constructor
  · simp only [check_weather_conditions_alert]
    split
    · next hemp =>
      have hnil := List.isEmpty_iff.mp hemp
      have hno : ¬ ∃ c ∈ ds.weather_conditions, ∃ p ∈ cfg.weather_conditions.alert_on,
          (strLower p).data <:+: (strLower c).data :=
        fun hex => (hkey.mpr hex) hnil
      exact iff_of_false (by simp) hno
    · next hemp =>
      have hne : ((ds.weather_conditions.map strLower).filter
          (fun c => (cfg.weather_conditions.alert_on.map strLower).any
            (fun p => strContains p c))) ≠ [] := by
        intro hc
        exact hemp (by rw [hc]; rfl)
      exact iff_of_true (by simp) (hkey.mp hne)
  · intro a ha
    simp only [check_weather_conditions_alert] at ha
    split at ha
    · cases ha
    · rw [Option.some.injEq] at ha
      subst ha
      exact ⟨rfl, rfl, rfl⟩

/-- Weather-conditions rule watching for the phrase storm (claim C9). -/
def cfgC9 : AlertConfig :=
  { weather_conditions := { enabled := true, alert_on := ["storm"] } }

/-- Summary whose only observed condition label is Thunderstorm (claim C9). -/
def dsC9 : DailySummary := {
  date := 1, location_name := "L", temp_min := 10, temp_max := 20, temp_avg := 15,
  wind_speed_max := 0, wind_gust_max := 0, precipitation_total := 0,
  precipitation_probability_max := 0, weather_conditions := ["Thunderstorm"],
  hourly_forecasts := [] }

/-- Witness for C9: alert_on storm matches the observed label Thunderstorm
case-insensitively, so the rule fires. -/
theorem C9_witness : (check_weather_conditions_alert cfgC9 dsC9).isSome = true :=
  (C9_weather_conditions cfgC9 dsC9).1.mpr
    ⟨"Thunderstorm", by decide, "storm", by decide, by decide⟩


/-- C7: for a produced daily summary, temp_max is an attained upper bound
of the per-sample (per-bucket) maxima over the day samples, temp_min is an
attained lower bound of the per-sample minima, and temp_avg is the
arithmetic mean of the per-sample point temperatures. -/
theorem C7_aggregation (today days_ahead : Int) (fd : Forecast) (ds : DailySummary)
    (h : get_daily_summary today fd days_ahead = some ds) :
    (∀ s ∈ fd.forecasts.filter (fun f => f.date == today + days_ahead),
        s.temp_max ≤ ds.temp_max ∧ ds.temp_min ≤ s.temp_min) ∧
    (∃ s ∈ fd.forecasts.filter (fun f => f.date == today + days_ahead),
        ds.temp_max = s.temp_max) ∧
    (∃ s ∈ fd.forecasts.filter (fun f => f.date == today + days_ahead),
        ds.temp_min = s.temp_min) ∧
    ds.temp_avg = ((fd.forecasts.filter (fun f => f.date == today + days_ahead)).map
        (fun s => s.temperature)).sum /
      ((fd.forecasts.filter (fun f => f.date == today + days_ahead)).length : ℚ) := by
  simp only [get_daily_summary] at h
  cases hd : fd.forecasts.filter (fun f => f.date == today + days_ahead) with
  | nil =>
    rw [hd] at h
    cases h
  | cons f fs =>
    rw [hd] at h
    rw [Option.some.injEq] at h
    subst h
    refine ⟨?_, ?_, ?_, rfl⟩
    · intro s hs
      rcases List.mem_cons.mp hs with rfl | hs
      · exact ⟨le_foldl_max fs (fun x => x.temp_max) s.temp_max,
          foldl_min_le fs (fun x => x.temp_min) s.temp_min⟩
      · exact ⟨mem_le_foldl_max fs (fun x => x.temp_max) f.temp_max s hs,
          foldl_min_le_mem fs (fun x => x.temp_min) f.temp_min s hs⟩
    · rcases foldl_max_attained fs (fun x => x.temp_max) f.temp_max with hm | ⟨x, hx, hfx⟩
      · exact ⟨f, List.mem_cons_self f fs, hm⟩
      · exact ⟨x, List.mem_cons_of_mem f hx, hfx⟩
    · rcases foldl_min_attained fs (fun x => x.temp_min) f.temp_min with hm | ⟨x, hx, hfx⟩
      · exact ⟨f, List.mem_cons_self f fs, hm⟩
      · exact ⟨x, List.mem_cons_of_mem f hx, hfx⟩

/-- Forecast with two same-day samples whose point temperatures differ from
their bucket extrema (claim C7 witness). -/
def fdC7 : Forecast :=
  { location_name := "W",
    forecasts := [
      { date := 1, temperature := 4, temp_min := 1, temp_max := 10,
        wind_speed_kmh := 5, wind_gust := 6, precipitation := 1,
        precipitation_probability := 30, weather := "Clouds" },
      { date := 1, temperature := 6, temp_min := 2, temp_max := 12,
        wind_speed_kmh := 7, wind_gust := 9, precipitation := 2,
        precipitation_probability := 50, weather := "Rain" }] }

/-- The summary the aggregator produces for fdC7 one day ahead of day 0
(claim C7 witness). -/
def dsC7 : DailySummary :=
  { date := 1, location_name := "W", temp_min := 1, temp_max := 12, temp_avg := 5,
    wind_speed_max := 7, wind_gust_max := 9, precipitation_total := 3,
    precipitation_probability_max := 50, weather_conditions := ["Clouds", "Rain"],
    hourly_forecasts := fdC7.forecasts }

/-- Witness for C7 at the concrete two-sample forecast. -/
theorem C7_witness :
    dsC7.temp_avg = ((fdC7.forecasts.filter (fun f => f.date == 0 + 1)).map
        (fun s => s.temperature)).sum /
      ((fdC7.forecasts.filter (fun f => f.date == 0 + 1)).length : ℚ) :=
  (C7_aggregation 0 1 fdC7 dsC7 (by
    have hdd : ["Clouds", "Rain"].dedup = ["Clouds", "Rain"] := by
      rw [List.dedup_cons_of_not_mem (by decide), List.dedup_cons_of_not_mem (by decide),
        List.dedup_nil]
    norm_num [get_daily_summary, fdC7, dsC7, hdd])).2.2.2

/-- C10: every alert the evaluation logic produces carries one of the five
fixed alert types and a severity among moderate, high and severe (the
declared severity low is never assigned); the produced alert types are
pairwise distinct, so one evaluation yields at most one alert per rule
type and hence at most five alerts. -/
theorem C10_invariants (cfg : AlertConfig) (today : Int) (fd : Forecast)
    (days_ahead : Int) :
    (∀ a ∈ check_alerts_core cfg today fd days_ahead,
      (a.alert_type = "wind" ∨ a.alert_type = "storm" ∨ a.alert_type = "temperature" ∨
        a.alert_type = "precipitation" ∨ a.alert_type = "weather_conditions") ∧
      (a.severity = "moderate" ∨ a.severity = "high" ∨ a.severity = "severe")) ∧
    ((check_alerts_core cfg today fd days_ahead).map (fun a => a.alert_type)).Nodup ∧
    (check_alerts_core cfg today fd days_ahead).length ≤ 5 := by
  cases hds : get_daily_summary today fd days_ahead with
  | none =>
    simp only [check_alerts_core, hds]
    exact ⟨fun a ha => absurd ha (List.not_mem_nil a), by simp, by simp⟩
  | some ds =>
    simp only [check_alerts_core, hds]
    refine ⟨?_, check_alerts_with_summary_types_nodup cfg ds,
      check_alerts_with_summary_length cfg ds⟩
    intro a ha
    rcases check_alerts_with_summary_cases cfg ds a ha with
      ⟨_, hs⟩ | ⟨_, hs⟩ | ⟨_, hs⟩ | ⟨_, hs⟩ | ⟨_, hs⟩
    · obtain ⟨ht, hv⟩ := check_wind_alert_spec cfg ds a hs
      exact ⟨Or.inl ht, hv⟩
    · obtain ⟨ht, hv⟩ := check_storm_alert_spec cfg ds a hs
      exact ⟨Or.inr (Or.inl ht), Or.inr (Or.inr hv)⟩
    · obtain ⟨ht, hv⟩ := check_temperature_alert_spec cfg ds a hs
      exact ⟨Or.inr (Or.inr (Or.inl ht)), hv.imp id Or.inl⟩
    · obtain ⟨ht, hv⟩ := check_precipitation_alert_spec cfg ds a hs
      exact ⟨Or.inr (Or.inr (Or.inr (Or.inl ht))), hv⟩
    · obtain ⟨ht, hv⟩ := check_weather_conditions_alert_spec cfg ds a hs
      exact ⟨Or.inr (Or.inr (Or.inr (Or.inr ht))), Or.inl hv⟩

/-- Configuration enabling every rule (claim C10 witness). -/
def cfgC10 : AlertConfig :=
  { wind := { enabled := true, threshold_kmh := some 50 },
    storm := { enabled := true },
    temperature := { enabled := true, min_temp_c := some 0 },
    precipitation := { enabled := true },
    weather_conditions := { enabled := true, alert_on := ["storm"] } }

/-- Witness for C10 at a concrete evaluation. -/
theorem C10_witness : (check_alerts_core cfgC10 0 fdC7 1).length ≤ 5 :=
  (C10_invariants cfgC10 0 fdC7 1).2.2

/-- Empty forecast (claim C6 witness). -/
def fdC6 : Forecast := { location_name := "E", forecasts := [] }

/-- Default configuration (claim C6 witness). -/
def cfgC6 : AlertConfig := {}

/-- C6: when no sample matches the target date, the aggregator returns
absence rather than an error and the evaluation logic of check_alerts
returns the empty alert list; but check_alerts as written raises
WeatherAPIError first, because it constructs a WeatherMonitor with an
empty api key (the code slip the claim misses). -/
theorem C6_absence (cfg : AlertConfig) (today days_ahead : Int) (fd : Forecast)
    (h : fd.forecasts.filter (fun s => s.date == today + days_ahead) = []) :
    get_daily_summary today fd days_ahead = none ∧
    check_alerts_core cfg today fd days_ahead = [] ∧
    check_alerts cfg today fd days_ahead =
      Except.error "openweathermap api key is required" := by
  have h1 : get_daily_summary today fd days_ahead = none := by
    simp only [get_daily_summary, h]
  exact ⟨h1, by simp only [check_alerts_core, h1], rfl⟩

/-- Witness for C6 at the empty forecast. -/
theorem C6_witness :
    get_daily_summary 0 fdC6 1 = none ∧
    check_alerts_core cfgC6 0 fdC6 1 = [] ∧
    check_alerts cfgC6 0 fdC6 1 =
      Except.error "openweathermap api key is required" :=
  C6_absence cfgC6 0 1 fdC6 rfl


/-- Configuration with wind enabled at a 1-day offset and storm enabled at
a 2-day offset, nothing else (claim C1 scenario). -/
def cfgC1 : AlertConfig :=
  { wind := { enabled := true, threshold_kmh := some 50, check_days_ahead := some 1 },
    storm := { enabled := true, wind_gust_threshold_kmh := some 70,
               precipitation_threshold_mm := some 20, check_days_ahead := some 2 } }

/-- Day-1 sample of location A, windy (claim C1 scenario). -/
def sC1A1 : ForecastSample := {
  date := 1, temperature := 15, temp_min := 14, temp_max := 16,
  wind_speed_kmh := 55, wind_gust := 58, precipitation := 0,
  precipitation_probability := 10, weather := "Clouds" }

/-- Day-2 sample of location A, calm (claim C1 scenario). -/
def sC1A2 : ForecastSample := {
  date := 2, temperature := 15, temp_min := 14, temp_max := 16,
  wind_speed_kmh := 10, wind_gust := 12, precipitation := 0,
  precipitation_probability := 10, weather := "Clear" }

/-- Day-1 sample of location B, windy (claim C1 scenario). -/
def sC1B1 : ForecastSample := {
  date := 1, temperature := 15, temp_min := 14, temp_max := 16,
  wind_speed_kmh := 52, wind_gust := 57, precipitation := 0,
  precipitation_probability := 10, weather := "Clouds" }

/-- Location A has data for days 1 and 2 (claim C1 scenario). -/
def fdC1A : Forecast := { location_name := "A", forecasts := [sC1A1, sC1A2] }

/-- Location B lacks day-2 data (claim C1 scenario). -/
def fdC1B : Forecast := { location_name := "B", forecasts := [sC1B1] }

/-- C1: on the two-location scenario the code as written raises
WeatherAPIError from the dummy WeatherMonitor construction before
evaluating anything; the evaluation logic past that guard produces
exactly the wind alerts for both locations, while the storm evaluation at
the offset with no data for location B yields the empty contribution
(skipped, not failed). -/
theorem C1_orchestration :
    check_all_locations cfgC1 0 [fdC1A, fdC1B] =
      Except.error "openweathermap api key is required" ∧
    (check_all_locations_core cfgC1 0 [fdC1A, fdC1B]).map
      (fun a => (a.location_name, a.alert_type, a.severity)) =
      [("A", "wind", "moderate"), ("B", "wind", "moderate")] ∧
    get_daily_summary 0 fdC1B 2 = none ∧
    check_alerts_core cfgC1 0 fdC1B 2 = [] := by
  refine ⟨rfl, ?_, ?_, ?_⟩
  · norm_num [check_all_locations_core, ruleEntries, check_alerts_core, get_daily_summary,
      check_alerts_with_summary, check_wind_alert, check_storm_alert, cfgC1,
      fdC1A, fdC1B, sC1A1, sC1A2, sC1B1]
  · norm_num [get_daily_summary, fdC1B, sC1B1]
  · norm_num [check_alerts_core, get_daily_summary, fdC1B, sC1B1]

end WeatherAlertBot
